import Mathlib

/-!
Verification of the Token Light Condition module (tokenlightcondition).

The repository contains two generations of the light-exposure engine:

* the current engine, wired into scripts/token-light-condition.mjs:
  LightingCalculator (unnamed/part_007), TokenHelpers (unnamed/part_002),
  the LIGHTING constants (unnamed/part_000) and the effectQueue
  (scripts/token-light-condition.mjs);
* a legacy engine: LightingManager (scripts/utils/lighting.js), CoreUtils
  (scripts/utils/core.js), an older LightingManager variant with
  _applyLightSourceEffect (first document of unnamed/part_008), and an
  older effectQueue (second document of unnamed/part_001).

Both are embedded below.  JavaScript numbers are modelled as rationals,
except for the two trigonometric geometry helpers (bearing angles), which
are modelled over the reals.  Host calls that can throw (game.settings.get,
effect creation, flag writes) are modelled as Except-valued fields of an
environment record; host geometry results that the resolver consumes
(3D distance from TokenHelpers.calculate3DDistance, bearing from
calculateLightAngle, wall occlusion from the Foundry collision API) are
carried per light source in the environment, mirroring the values the
source code obtains from those calls.
-/

/-- A JavaScript exception, carrying no payload that the module inspects. -/
inductive JsError : Type
  | thrown
  deriving DecidableEq, Repr

/-- One entry of the light-source catalog as the resolvers read it:
the fields of source.data (dim, bright, luminosity, angle, rotation),
the active flag, whether the placeable has a light source object at all
(source may be undefined: the code tests source?.active), together with
the geometric facts the resolver obtains from host calls for this token:
dist models TokenHelpers.calculate3DDistance(token, source), bearing models
calculateLightAngle(token, lightSource), and wallBlocked models
TokenHelpers.hasWallCollision(token, lightSource). -/
structure SourceRec : Type where
  hasSource : Bool
  active : Bool
  dim : ℚ
  bright : ℚ
  luminosity : ℚ
  angle : ℚ
  rotation : ℚ
  dist : ℚ
  bearing : ℚ
  wallBlocked : Bool
  deriving DecidableEq, Repr

/-- A tile as _isTokenUnderLightRestrictingTile reads it: the
restrictions.light flag, whether token.bounds.intersects(tile.bounds)
holds for the token under consideration, and the tile elevation. -/
structure TileRec : Type where
  restrictsLight : Bool
  intersectsToken : Bool
  elevation : ℚ
  deriving DecidableEq, Repr

deriving instance DecidableEq for Except

/-- The scene/settings state read by LightingCalculator.determineLightLevel
(unnamed/part_007) while resolving one token.  The two settings reads may
throw (game.settings.get throws on an unregistered key), hence Except.
tiles is Option: the code guards with canvas.tiles?.placeables. -/
structure Env : Type where
  giSetting : Except JsError Bool
  negSetting : Except JsError Bool
  globalLightEnabled : Bool
  darkness : ℚ
  thresholdMax : Option ℚ
  tiles : Option (List TileRec)
  tokenElevation : ℚ
  sources : List SourceRec
  deriving DecidableEq, Repr

/-- Stable insertion of a source into a list kept in descending luminosity
order; together with sortByLum this models Array.prototype.sort (stable
since ES2019) under the comparator (a, b) => bLuminosity - aLuminosity
used by _processLightSources. -/
def insertByLum (s : SourceRec) : List SourceRec → List SourceRec
  | [] => [s]
  | t :: ts => if t.luminosity ≤ s.luminosity then s :: t :: ts else t :: insertByLum s ts

/-- Sort the light-source catalog brightest luminosity first
(LightingCalculator._processLightSources, lines 204-209 of part_007). -/
def sortByLum (l : List SourceRec) : List SourceRec :=
  l.foldr insertByLum []

/-- LightingCalculator._isTokenInLightAngle (part_007 lines 294-319) with
the token bearing (the result of this.calculateLightAngle) as a parameter.
360-degree lights affect everything; otherwise the absolute difference
between bearing and rotation is wrapped to at most 180 and compared
inclusively against half the cone angle. -/
def isTokenInLightAngle (lightAngle lightRotation tokenAngle : ℚ) : Bool :=
  if 360 ≤ lightAngle then true
  else
    let angleDifference := |tokenAngle - lightRotation|
    let angleDifference := if 180 < angleDifference then 360 - angleDifference else angleDifference
    decide (angleDifference ≤ lightAngle / 2)

/-- LightingCalculator._processIndividualLight (part_007 lines 231-284).
Both the dim step and the bright step test currentLightLevel (the level at
entry), while assignments accumulate in newLightLevel; the bright raise for
a positive source is additionally guarded by !globalIlluminationActive. -/
def processIndividualLight (s : SourceRec) (currentLightLevel : ℕ)
    (globalIlluminationActive supportNegativeLights : Bool) : ℕ :=
  if ¬(s.hasSource = true ∧ s.active = true) then currentLightLevel
  else
    let tokenDistance := s.dist
    let dimRadius := s.dim
    let brightRadius := s.bright
    let isNegativeLight := supportNegativeLights = true ∧ s.luminosity < 0
    if max dimRadius brightRadius < tokenDistance then currentLightLevel
    else if isTokenInLightAngle s.angle s.rotation s.bearing = false then currentLightLevel
    else if s.wallBlocked = true then currentLightLevel
    else
      let n1 :=
        if tokenDistance ≤ dimRadius ∧ 0 < dimRadius then
          if isNegativeLight ∧ 1 < currentLightLevel then 1
          else if ¬isNegativeLight ∧ currentLightLevel < 1 then 1
          else currentLightLevel
        else currentLightLevel
      let n2 :=
        if tokenDistance ≤ brightRadius ∧ 0 < brightRadius then
          if isNegativeLight ∧ 0 < currentLightLevel then 0
          else if ¬isNegativeLight ∧ currentLightLevel < 2 ∧ globalIlluminationActive = false then 2
          else n1
        else n1
      n2

/-- LightingCalculator._isTokenUnderLightRestrictingTile (part_007 lines
327-354): false when canvas.tiles?.placeables is absent; otherwise true
iff some light-restricting tile intersects the token bounds and the token
elevation is strictly below the tile elevation. -/
def isTokenUnderLightRestrictingTile (env : Env) : Bool :=
  match env.tiles with
  | none => false
  | some placeables =>
    let lightRestrictingTiles := placeables.filter (fun t => t.restrictsLight)
    if lightRestrictingTiles.isEmpty then false
    else lightRestrictingTiles.any
      (fun t => t.intersectsToken && decide (env.tokenElevation < t.elevation))

/-- LightingCalculator._checkGlobalIllumination (part_007 lines 171-188):
global light enabled, threshold (darkness.max ?? 1) truthy, darkness at
most the threshold, and the token not under a light-restricting tile. -/
def checkGlobalIllumination (env : Env) : Bool :=
  let globalLightThreshold := env.thresholdMax.getD 1
  if env.globalLightEnabled = true ∧ globalLightThreshold ≠ 0 ∧ env.darkness ≤ globalLightThreshold
  then !(isTokenUnderLightRestrictingTile env)
  else false

/-- LightingCalculator._processLightSources (part_007 lines 198-219):
sort the catalog brightest first, read the negative-lights setting, and
fold _processIndividualLight over the sorted catalog. -/
def processLightSources (env : Env) (currentLightLevel : ℕ)
    (globalIlluminationActive : Bool) : Except JsError ℕ := do
  let supportNegativeLights ← env.negSetting
  Except.ok ((sortByLum env.sources).foldl
    (fun cur s => processIndividualLight s cur globalIlluminationActive supportNegativeLights)
    currentLightLevel)

/-- LightingCalculator._convertLightLevelToText (part_007 lines 362-374):
0 is dark, 1 is dim, 2 is bright, anything else defaults to bright. -/
def convertLightLevelToText (lightLevel : ℕ) : String :=
  match lightLevel with
  | 0 => "dark"
  | 1 => "dim"
  | 2 => "bright"
  | _ => "bright"

/-- The try-block of LightingCalculator.determineLightLevel (part_007 lines
74-103): global illumination first, then individual sources when global
illumination is inactive or negative lights are enabled (the JS shortcut
!giActive || settings.get only reads the setting when giActive). -/
def determineLightLevelTry (env : Env) : Except JsError String := do
  let globalConfig ← env.giSetting
  let globalIlluminationActive := globalConfig && checkGlobalIllumination env
  let lightLevel : ℕ := if globalIlluminationActive then 2 else 0
  let shouldCheckIndividualLights ←
    if globalIlluminationActive = false then Except.ok true else env.negSetting
  let lightLevel ←
    if shouldCheckIndividualLights then processLightSources env lightLevel globalIlluminationActive
    else Except.ok lightLevel
  Except.ok (convertLightLevelToText lightLevel)

/-- LightingCalculator.determineLightLevel (part_007 lines 74-108): the
catch clause resolves any exception raised in the try-block to bright. -/
def determineLightLevel (env : Env) : String :=
  match determineLightLevelTry env with
  | Except.ok t => t
  | Except.error _ => "bright"

/-! ### Legacy engine: LightingManager.findTokenLighting
(scripts/utils/lighting.js, lines 100-188). -/

/-- The state read by the legacy LightingManager.findTokenLighting.
processing says whether the token id is already in processingTokens;
storedFlag is the persisted lightLevel flag of the actor.  The legacy
resolver never reads tiles or the token elevation: the fields are carried
here as world state to show that the region veto of the current engine
has no counterpart in this code path.  The four trailing operations model
the awaited host writes (Effects.clearEffects, Effects.addDark,
Effects.addDim, actor.setFlag), each of which may throw. -/
structure MEnv : Type where
  processing : Bool
  storedFlag : Option String
  giSetting : Except JsError Bool
  negSetting : Except JsError Bool
  globalLightEnabled : Bool
  darkness : ℚ
  thresholdMax : Option ℚ
  tiles : Option (List TileRec)
  tokenElevation : ℚ
  sources : List SourceRec
  clearEffectsOp : Except JsError Unit
  addDarkOp : Except JsError Unit
  addDimOp : Except JsError Unit
  setFlagOp : Except JsError Unit
  deriving DecidableEq, Repr

/-- The per-source body of the legacy findTokenLighting loop
(scripts/utils/lighting.js lines 123-167).  Unlike
_processIndividualLight, both steps test and update the one running
lightLevel (the bright step sees the dim step's result), the range gate is
distance ≤ dim or distance ≤ bright, the bearing is normalized by adding
360 when negative, and the positive bright raise has no global-illumination
guard. -/
def legacyLightStep (negativeLights : Bool) (lightLevel : ℕ) (s : SourceRec) : ℕ :=
  if s.hasSource = true ∧ s.active = true then
    let tokenDistance := s.dist
    let negativeLight := negativeLights = true ∧ s.luminosity < 0
    if tokenDistance ≤ s.dim ∨ tokenDistance ≤ s.bright then
      let inLight :=
        if s.angle < 360 then
          let a0 := s.bearing
          let a := if a0 < 0 then a0 + 360 else a0
          let adjustedAngle := |a - s.rotation|
          let adjustedAngle := if 180 < adjustedAngle then 360 - adjustedAngle else adjustedAngle
          !(decide (s.angle / 2 < adjustedAngle))
        else true
      if inLight = true ∧ s.wallBlocked = false then
        let l1 :=
          if tokenDistance ≤ s.dim ∧ 0 < s.dim then
            if negativeLight ∧ 1 < lightLevel then 1
            else if lightLevel < 1 ∧ ¬negativeLight then 1
            else lightLevel
          else lightLevel
        let l2 :=
          if tokenDistance ≤ s.bright ∧ 0 < s.bright then
            if negativeLight ∧ 0 < l1 then 0
            else if l1 < 2 ∧ ¬negativeLight then 2
            else l1
          else l1
        l2
      else lightLevel
    else lightLevel
  else lightLevel

/-- The effect writes of findTokenLighting (lighting.js lines 179-182):
clear first, then add the dark or dim marker; bright adds nothing. -/
def legacyEffectsBlock (env : MEnv) (lightLevel : ℕ) : Except JsError Unit := do
  let _ ← env.clearEffectsOp
  if lightLevel = 0 then env.addDarkOp
  else if lightLevel = 1 then env.addDimOp
  else Except.ok ()

/-- LightingManager.findTokenLighting (scripts/utils/lighting.js lines
100-188).  The cached path returns the stored flag (or bright) when the
token is already being processed.  The body sits in try/finally: the
finally clause only removes the token from processingTokens, so any
exception raised by a settings read or a host write propagates to the
caller; there is no catch clause. -/
def findTokenLighting (env : MEnv) : Except JsError String :=
  if env.processing = true then Except.ok (env.storedFlag.getD "bright")
  else do
    let globalConfig ← env.giSetting
    let lightLevel : ℕ :=
      if globalConfig = true then
        let globalLightThreshold := env.thresholdMax.getD 1
        if env.globalLightEnabled = true ∧ globalLightThreshold ≠ 0 ∧
            env.darkness ≤ globalLightThreshold then 2 else 0
      else 0
    let negativeLights ← env.negSetting
    let lightLevel : ℕ :=
      if lightLevel < 2 ∨ negativeLights = true then
        (sortByLum env.sources).foldl (legacyLightStep negativeLights) lightLevel
      else lightLevel
    let lightLevelText :=
      if lightLevel = 0 then "dark" else if lightLevel = 1 then "dim" else "bright"
    let _ ←
      if env.storedFlag ≠ some lightLevelText then legacyEffectsBlock env lightLevel
      else Except.ok ()
    let _ ← env.setFlagOp
    Except.ok lightLevelText

/-! ### Legacy intermediate variant: LightingManager with
_applyLightSourceEffect (first document of unnamed/part_008). -/

/-- LightingManager._applyLightSourceEffect (part_008 lines 252-272).
The dim block returns early, so a positive source covering the token with
both its dim and its bright radius returns DIM without the bright block
ever being reached. -/
def applyLightSourceEffect (currentLevel : ℕ) (distance dimDistance brightDistance : ℚ)
    (negativeLights : Bool) (luminosity : ℚ) : ℕ :=
  let isNegativeLight := negativeLights = true ∧ luminosity < 0
  if distance ≤ dimDistance ∧ 0 < dimDistance ∧
      (isNegativeLight ∧ 1 < currentLevel ∨ ¬isNegativeLight ∧ currentLevel < 1) then 1
  else if distance ≤ brightDistance ∧ 0 < brightDistance ∧ isNegativeLight ∧ 0 < currentLevel then 0
  else if distance ≤ brightDistance ∧ 0 < brightDistance ∧ ¬isNegativeLight ∧ currentLevel < 2 then 2
  else currentLevel

/-- LightingManager._isTokenInLightAngle (part_008 lines 227-239): as the
cone test of the current engine, but the bearing (the result of
getCalculatedLightAngle, which is not pre-normalized there) has 360 added
when negative before the comparison. -/
def isTokenInLightAngleLM (lightAngle lightRotation tokenAngle : ℚ) : Bool :=
  if 360 ≤ lightAngle then true
  else
    let angle := if tokenAngle < 0 then tokenAngle + 360 else tokenAngle
    let adjustedAngle := |angle - lightRotation|
    let adjustedAngle := if 180 < adjustedAngle then 360 - adjustedAngle else adjustedAngle
    decide (adjustedAngle ≤ lightAngle / 2)

/-- The loop of LightingManager._calculateLightSources (part_008 lines
183-202) over the sorted catalog: gates (active, range, angle, wall), the
step above, and the early break once BRIGHT is reached while negative
lights are disabled. -/
def lmLoop (negativeLights : Bool) : List SourceRec → ℕ → ℕ
  | [], lightLevel => lightLevel
  | s :: rest, lightLevel =>
    if ¬(s.hasSource = true ∧ s.active = true) then lmLoop negativeLights rest lightLevel
    else if max s.dim s.bright < s.dist then lmLoop negativeLights rest lightLevel
    else if isTokenInLightAngleLM s.angle s.rotation s.bearing = false then
      lmLoop negativeLights rest lightLevel
    else if s.wallBlocked = true then lmLoop negativeLights rest lightLevel
    else
      let lightLevel :=
        applyLightSourceEffect lightLevel s.dist s.dim s.bright negativeLights s.luminosity
      if 2 ≤ lightLevel ∧ negativeLights = false then lightLevel
      else lmLoop negativeLights rest lightLevel

/-- LightingManager._calculateLightSources (part_008 lines 172-205):
sort brightest first, then run the loop. -/
def calculateLightSourcesLM (negativeLights : Bool) (sources : List SourceRec)
    (currentLightLevel : ℕ) : ℕ :=
  lmLoop negativeLights (sortByLum sources) currentLightLevel

/-- LightingManager._getLightLevelText (part_008 lines 309-318). -/
def getLightLevelText (lightLevel : ℕ) : String :=
  match lightLevel with
  | 0 => "dark"
  | 1 => "dim"
  | _ => "bright"

/-! ### Circuit breaker: TokenHelpers.canProcessToken (unnamed/part_002
lines 27-40) and CoreUtils.canProcessToken (scripts/utils/core.js lines
12-24), which have the same body with PROCESSING_COOLDOWN = 500. -/

/-- Map.set on the processingCircuitBreaker map, modelled as an
association list whose head entry shadows older ones under List.lookup. -/
def breakerSet (breaker : List (String × ℕ)) (tokenId : String) (now : ℕ) :
    List (String × ℕ) :=
  (tokenId, now) :: breaker

/-- canProcessToken: look up the last processed time; if it is truthy
(nonzero) and now - lastProcessed < 500 (JavaScript subtraction, so an
integer comparison), refuse without touching the map; otherwise record now
for the token and admit.  Returns the admission flag and the new map. -/
def canProcessToken (breaker : List (String × ℕ)) (tokenId : String) (now : ℕ) :
    Bool × List (String × ℕ) :=
  match breaker.lookup tokenId with
  | some lastProcessed =>
    if lastProcessed ≠ 0 ∧ (now : ℤ) - (lastProcessed : ℤ) < 500 then (false, breaker)
    else (true, breakerSet breaker tokenId now)
  | none => (true, breakerSet breaker tokenId now)

/-! ### Effect queue drains: effectQueue.processQueue
(scripts/token-light-condition.mjs lines 64-104) and the older variant
without an age check (second document of unnamed/part_001, lines 294-322). -/

/-- A pending queue entry as stored by effectQueue.add: the target light
level and the Date.now() timestamp at enqueue time. -/
structure PendingOp : Type where
  lightLevel : String
  timestamp : ℕ
  deriving DecidableEq, Repr

/-- The stale filter of the current processQueue (token-light-condition.mjs
lines 76-85): an operation survives iff now - timestamp < MAX_OPERATION_AGE
(5000), with JavaScript (integer) subtraction. -/
def validOperations (operations : List (String × PendingOp)) (now : ℕ) :
    List (String × PendingOp) :=
  operations.filter (fun p => decide ((now : ℤ) - (p.2.timestamp : ℤ) < 5000))

/-- The operations the current processQueue actually applies (lines 87-93):
the surviving entries whose token still exists on canvas and passes
TokenHelpers.isValidToken, modelled by the tokenValid predicate. -/
def processQueueExecuted (tokenValid : String → Bool)
    (operations : List (String × PendingOp)) (now : ℕ) : List (String × PendingOp) :=
  (validOperations operations now).filter (fun p => tokenValid p.1)

/-- The operations applied by the older processQueue (part_001 lines
294-322): every snapshot entry with a live valid token is processed; the
stored timestamps are never consulted. -/
def processQueueOldExecuted (tokenValid : String → Bool)
    (operations : List (String × PendingOp)) : List (String × PendingOp) :=
  operations.filter (fun p => tokenValid p.1)

/-! ### Entry checks: LightingCalculator.calculateTokenLighting
(unnamed/part_007 lines 20-53) and LightingManager.checkTokenLighting
(scripts/utils/lighting.js lines 78-83). -/

/-- TokenHelpers.hasValidHitPoints (part_002 lines 139-146): false when
the hp data (or its value) is missing, otherwise value > 0.  The same
predicate is LightingManager._hasValidHp (lighting.js lines 69-72), where
a missing value compares as not greater than 0. -/
def hasValidHitPoints (hpValue : Option ℚ) : Bool :=
  match hpValue with
  | some v => decide (0 < v)
  | none => false

/-- The externally observable outcome of one calculateTokenLighting call. -/
inductive CalcOutcome : Type
  | skipped
  | queuedClear
  | queuedLevel (lightLevel : String)
  | unchanged
  deriving DecidableEq, Repr

/-- LightingCalculator.calculateTokenLighting (part_007 lines 20-53).
The guards isGM, isValidToken and canProcessToken read host state and the
breaker map and are passed as booleans.  With valid hit points the level
is resolved and enqueued when it differs from the stored flag; otherwise
a clear operation is enqueued and no level is resolved. -/
def calculateTokenLighting (isGM isValidToken canProcess : Bool)
    (hpValue : Option ℚ) (storedFlag : Option String) (env : Env) : CalcOutcome :=
  if isGM = false then CalcOutcome.skipped
  else if isValidToken = false then CalcOutcome.skipped
  else if canProcess = false then CalcOutcome.skipped
  else if hasValidHitPoints hpValue = true then
    let lightLevel := determineLightLevel env
    if storedFlag ≠ some lightLevel then CalcOutcome.queuedLevel lightLevel
    else CalcOutcome.unchanged
  else CalcOutcome.queuedClear

/-- The externally observable outcome of one checkTokenLighting call. -/
inductive CheckOutcome : Type
  | skipped
  | resolved
  | clearedEffects
  deriving DecidableEq, Repr

/-- LightingManager.checkTokenLighting (lighting.js lines 78-83): GM and
validity guards, then findTokenLighting for live tokens and
Effects.clearEffects for tokens without valid hit points. -/
def checkTokenLighting (isGM isValidActor : Bool) (hpValue : Option ℚ) : CheckOutcome :=
  if isGM = false then CheckOutcome.skipped
  else if isValidActor = false then CheckOutcome.skipped
  else if hasValidHitPoints hpValue = true then CheckOutcome.resolved
  else CheckOutcome.clearedEffects

/-! ### Bearing angles, over the reals.  JavaScript Math.atan2(y, x) is
the argument of the complex number x + y*i, in (-pi, pi]. -/

/-- LightingCalculator.calculateLightAngle (unnamed/part_007 lines
150-163): deltaX = light.x - token.x, deltaY = token.y - light.y; 0 for
coincident centers; otherwise atan2(deltaX, deltaY) in degrees, with 360
added when negative. -/
noncomputable def calculateLightAngle (tokenX tokenY lightX lightY : ℝ) : ℝ :=
  let deltaX := lightX - tokenX
  let deltaY := tokenY - lightY
  if deltaX = 0 ∧ deltaY = 0 then 0
  else
    let angle := Complex.arg ⟨deltaY, deltaX⟩ * (180 / Real.pi)
    if angle < 0 then angle + 360 else angle

/-- LightingManager.getCalculatedLightAngle (scripts/utils/lighting.js
lines 196-204): atan2(a1 - b1, b2 - a2) in degrees with no normalization.
The JS guard comparing the two center objects uses reference equality and
returns 0; for coincident coordinates the computed value is atan2(0, 0),
which is 0 as well, so the guard is value-transparent and is omitted. -/
noncomputable def getCalculatedLightAngle (b1 b2 a1 a2 : ℝ) : ℝ :=
  Complex.arg ⟨b2 - a2, a1 - b1⟩ * (180 / Real.pi)

/-! ### Concrete fixtures used by witnesses and counterexamples -/

/-- An active positive 360-degree source with dim radius 20 and bright
radius 10, unobstructed, at 3D distance d from the token. -/
def brightSourceAt (d : ℚ) : SourceRec :=
  { hasSource := true, active := true, dim := 20, bright := 10, luminosity := 0,
    angle := 360, rotation := 0, dist := d, bearing := 0, wallBlocked := false }

/-- An active negative (luminosity -1/2) 360-degree source whose bright
radius 10 covers the token at distance 5, unobstructed. -/
def darknessSource : SourceRec :=
  { hasSource := true, active := true, dim := 0, bright := 10,
    luminosity := ⟨-1, 2, by decide, by decide⟩,
    angle := 360, rotation := 0, dist := 5, bearing := 0, wallBlocked := false }

/-- A minimal scene with no global light, no tiles, and the given settings
results and catalog. -/
def envWith (gi ns : Except JsError Bool) (src : List SourceRec) : Env :=
  { giSetting := gi, negSetting := ns, globalLightEnabled := false, darkness := 0,
    thresholdMax := none, tiles := none, tokenElevation := 0, sources := src }

/-- A light-restricting tile at elevation 10 that intersects the token. -/
def tileAboveW : TileRec :=
  { restrictsLight := true, intersectsToken := true, elevation := 10 }

/-- The region-veto scenario for the current engine: global illumination
enabled, global light on, darkness 1/5 at most the threshold 1/2, the
token at elevation 0 under tileAboveW, and no light sources. -/
def envGIVeto : Env :=
  { giSetting := Except.ok true, negSetting := Except.ok false,
    globalLightEnabled := true, darkness := ⟨1, 5, by decide, by decide⟩,
    thresholdMax := some ⟨1, 2, by decide, by decide⟩,
    tiles := some [tileAboveW], tokenElevation := 0, sources := [] }

/-- The same region-veto scenario presented to the legacy resolver. -/
def mEnvGIVeto : MEnv :=
  { processing := false, storedFlag := some "bright", giSetting := Except.ok true,
    negSetting := Except.ok false, globalLightEnabled := true,
    darkness := ⟨1, 5, by decide, by decide⟩,
    thresholdMax := some ⟨1, 2, by decide, by decide⟩,
    tiles := some [tileAboveW], tokenElevation := 0,
    sources := [], clearEffectsOp := Except.ok (), addDarkOp := Except.ok (),
    addDimOp := Except.ok (), setFlagOp := Except.ok () }

/-- A legacy-resolver state in which the first settings read throws. -/
def mEnvThrow : MEnv :=
  { processing := false, storedFlag := none, giSetting := Except.error JsError.thrown,
    negSetting := Except.ok false, globalLightEnabled := false, darkness := 0,
    thresholdMax := none, tiles := none, tokenElevation := 0, sources := [],
    clearEffectsOp := Except.ok (), addDarkOp := Except.ok (),
    addDimOp := Except.ok (), setFlagOp := Except.ok () }

/-- A legacy-resolver state that completes normally and resolves dark. -/
def mEnvPlain : MEnv :=
  { processing := false, storedFlag := some "dark", giSetting := Except.ok false,
    negSetting := Except.ok false, globalLightEnabled := false, darkness := 0,
    thresholdMax := none, tiles := none, tokenElevation := 0, sources := [],
    clearEffectsOp := Except.ok (), addDarkOp := Except.ok (),
    addDimOp := Except.ok (), setFlagOp := Except.ok () }

/-- A current-engine state in which the first settings read throws. -/
def envThrow : Env :=
  { giSetting := Except.error JsError.thrown, negSetting := Except.ok false,
    globalLightEnabled := false, darkness := 0, thresholdMax := none,
    tiles := none, tokenElevation := 0, sources := [] }

/-- The three labels of the classification. -/
def isLightLabel (s : String) : Bool :=
  (s == "bright") || (s == "dim") || (s == "dark")

/-- The wrapped angular difference of the cone test: the absolute
difference, folded to at most 180 degrees. -/
def wrapDiff (tokenAngle lightRotation : ℚ) : ℚ :=
  let d := |tokenAngle - lightRotation|
  if 180 < d then 360 - d else d

/-! ## Helper lemmas -/

/-- A 360-degree (or wider) light reaches every bearing. -/
lemma isTokenInLightAngle_of_ge360 {a r b : ℚ} (h : 360 ≤ a) :
    isTokenInLightAngle a r b = true := by
  simp [isTokenInLightAngle, h]

/-- A negative source whose bright radius covers the token forces the
level to 0, for every entry level and every global-illumination state. -/
lemma processIndividualLight_negative_bright
    (s : SourceRec) (cur : ℕ) (gi ns : Bool)
    (hh : s.hasSource = true) (ha : s.active = true)
    (hang : isTokenInLightAngle s.angle s.rotation s.bearing = true)
    (hw : s.wallBlocked = false)
    (hns : ns = true) (hlum : s.luminosity < 0)
    (hbr : s.dist ≤ s.bright) (hbp : 0 < s.bright) :
    processIndividualLight s cur gi ns = 0 := by
  have hmax : ¬ max s.dim s.bright < s.dist :=
    not_lt.2 (le_trans hbr (le_max_right _ _))
  rcases Nat.eq_zero_or_pos cur with hc | hc
  · subst hc
    simp [processIndividualLight, hh, ha, hang, hw, hns, hlum, hmax, hbr, hbp]
  · simp [processIndividualLight, hh, ha, hang, hw, hns, hlum, hmax, hbr, hbp, hc]

/-- A positive source whose bright radius covers the token forces the
level to 2 whenever global illumination is not active. -/
lemma processIndividualLight_positive_bright
    (s : SourceRec) (cur : ℕ) (ns : Bool)
    (hh : s.hasSource = true) (ha : s.active = true)
    (hang : isTokenInLightAngle s.angle s.rotation s.bearing = true)
    (hw : s.wallBlocked = false)
    (hnneg : ¬(ns = true ∧ s.luminosity < 0))
    (hbr : s.dist ≤ s.bright) (hbp : 0 < s.bright)
    (hcur : cur ≤ 2) :
    processIndividualLight s cur false ns = 2 := by
  have hmax : ¬ max s.dim s.bright < s.dist :=
    not_lt.2 (le_trans hbr (le_max_right _ _))
  by_cases hc : cur < 2
  · by_cases hd : s.dist ≤ s.dim ∧ 0 < s.dim <;>
      simp [processIndividualLight, hh, ha, hang, hw, hnneg, hmax, hbr, hbp, hc, hd] <;>
      (try split_ifs) <;> omega
  · have hc2 : cur = 2 := by omega
    subst hc2
    by_cases hd : s.dist ≤ s.dim ∧ 0 < s.dim <;>
      simp [processIndividualLight, hh, ha, hang, hw, hnneg, hmax, hbr, hbp, hd]

/-- While global illumination is active a positive source leaves 2
unreachable from below: the result is 2 exactly when the entry level
already was 2. -/
lemma processIndividualLight_positive_gi
    (s : SourceRec) (cur : ℕ) (ns : Bool)
    (hh : s.hasSource = true) (ha : s.active = true)
    (hang : isTokenInLightAngle s.angle s.rotation s.bearing = true)
    (hw : s.wallBlocked = false)
    (hnneg : ¬(ns = true ∧ s.luminosity < 0))
    (hbr : s.dist ≤ s.bright) (hbp : 0 < s.bright) :
    (processIndividualLight s cur true ns = 2 ↔ cur = 2) := by
  have hmax : ¬ max s.dim s.bright < s.dist :=
    not_lt.2 (le_trans hbr (le_max_right _ _))
  by_cases hd : s.dist ≤ s.dim ∧ 0 < s.dim <;>
    by_cases hc : cur < 1 <;>
    simp [processIndividualLight, hh, ha, hang, hw, hnneg, hmax, hbr, hbp, hd, hc] <;>
    (try split_ifs) <;> omega

/-- A source neither of whose radii covers the token (or whose covering
radius is not positive) leaves the level unchanged. -/
lemma processIndividualLight_no_effect
    (s : SourceRec) (cur : ℕ) (gi ns : Bool)
    (hd : ¬(s.dist ≤ s.dim ∧ 0 < s.dim))
    (hb : ¬(s.dist ≤ s.bright ∧ 0 < s.bright)) :
    processIndividualLight s cur gi ns = cur := by
  simp [processIndividualLight, hd, hb]

/-- A positive source covering the token only with its dim radius raises
an entry level of 0 to 1. -/
lemma processIndividualLight_positive_dim_only
    (s : SourceRec) (gi ns : Bool)
    (hh : s.hasSource = true) (ha : s.active = true)
    (hang : isTokenInLightAngle s.angle s.rotation s.bearing = true)
    (hw : s.wallBlocked = false)
    (hnneg : ¬(ns = true ∧ s.luminosity < 0))
    (hb : ¬(s.dist ≤ s.bright ∧ 0 < s.bright))
    (hdim : s.dist ≤ s.dim) (hdp : 0 < s.dim) :
    processIndividualLight s 0 gi ns = 1 := by
  have hmax : ¬ max s.dim s.bright < s.dist :=
    not_lt.2 (le_trans hdim (le_max_left _ _))
  simp [processIndividualLight, hh, ha, hang, hw, hnneg, hmax, hdim, hdp, hb]

/-- Sorting puts a nonnegative-luminosity source before a
negative-luminosity one, whichever way round the catalog listed them. -/
lemma sortByLum_pair_pos_neg (p n : SourceRec)
    (hp : 0 ≤ p.luminosity) (hn : n.luminosity < 0) :
    sortByLum [p, n] = [p, n] ∧ sortByLum [n, p] = [p, n] := by
  have h1 : n.luminosity ≤ p.luminosity := le_of_lt (lt_of_lt_of_le hn hp)
  have h2 : ¬ p.luminosity ≤ n.luminosity := not_le.2 (lt_of_lt_of_le hn hp)
  constructor <;> simp [sortByLum, insertByLum, h1, h2]

/-- With the global-illumination setting disabled, determineLightLevel is
the fold of the per-source step over the sorted catalog, starting dark. -/
lemma determineLightLevel_noGI (env : Env) (ns : Bool)
    (hgi : env.giSetting = Except.ok false)
    (hns : env.negSetting = Except.ok ns) :
    determineLightLevel env =
      convertLightLevelToText
        ((sortByLum env.sources).foldl
          (fun cur s => processIndividualLight s cur false ns) 0) := by
  simp [determineLightLevel, determineLightLevelTry, processLightSources,
    hgi, hns, Bind.bind, Except.bind]

/-- With the global-illumination setting enabled but
_checkGlobalIllumination vetoed, determineLightLevel is likewise the fold
over the sorted catalog starting dark, with the inactive flag. -/
lemma determineLightLevel_giVetoed (env : Env) (ns : Bool)
    (hgi : env.giSetting = Except.ok true)
    (hns : env.negSetting = Except.ok ns)
    (hveto : checkGlobalIllumination env = false) :
    determineLightLevel env =
      convertLightLevelToText
        ((sortByLum env.sources).foldl
          (fun cur s => processIndividualLight s cur false ns) 0) := by
  simp [determineLightLevel, determineLightLevelTry, processLightSources,
    hgi, hns, hveto, Bind.bind, Except.bind]

/-- A light-restricting tile that intersects the token and sits above it
makes _isTokenUnderLightRestrictingTile true. -/
lemma isTokenUnderLightRestrictingTile_of_mem (env : Env) (ts : List TileRec)
    (tile : TileRec)
    (htiles : env.tiles = some ts) (hmem : tile ∈ ts)
    (hr : tile.restrictsLight = true) (hint : tile.intersectsToken = true)
    (helv : env.tokenElevation < tile.elevation) :
    isTokenUnderLightRestrictingTile env = true := by
  have hfmem : tile ∈ ts.filter (fun t => t.restrictsLight) :=
    List.mem_filter.2 ⟨hmem, hr⟩
  have hne : ts.filter (fun t => t.restrictsLight) ≠ [] :=
    List.ne_nil_of_mem hfmem
  simp only [isTokenUnderLightRestrictingTile, htiles]
  rw [if_neg (by simpa [List.isEmpty_iff] using hne)]
  exact List.any_eq_true.2 ⟨tile, hfmem, by simp [hint, helv]⟩

lemma convertLightLevelToText_label (n : ℕ) :
    isLightLabel (convertLightLevelToText n) = true := by
  unfold convertLightLevelToText
  rcases n with _ | _ | _ | n <;> rfl

lemma levelText_label (n : ℕ) :
    isLightLabel (if n = 0 then "dark" else if n = 1 then "dim" else "bright") = true := by
  by_cases h0 : n = 0 <;> by_cases h1 : n = 1 <;> simp [h0, h1] <;> rfl

lemma determineLightLevelTry_shape (env : Env) :
    (∃ e, determineLightLevelTry env = Except.error e)
  ∨ (∃ n, determineLightLevelTry env = Except.ok (convertLightLevelToText n)) := by
  unfold determineLightLevelTry processLightSources
  rcases hg : env.giSetting with e | g
  · exact Or.inl ⟨e, by simp [Bind.bind, Except.bind]⟩
  · rcases hng : env.negSetting with e | ns
    · by_cases hgi : (g && checkGlobalIllumination env) = false
      · exact Or.inl ⟨e, by simp [Bind.bind, Except.bind, hgi]⟩
      · exact Or.inl ⟨e, by simp [Bind.bind, Except.bind, hgi]⟩
    · by_cases hgi : (g && checkGlobalIllumination env) = false
      · exact Or.inr ⟨_, by simp [Bind.bind, Except.bind, hgi]; rfl⟩
      · by_cases hns2 : ns = true
        · exact Or.inr ⟨_, by simp [Bind.bind, Except.bind, hgi, hns2]; rfl⟩
        · exact Or.inr ⟨_, by simp [Bind.bind, Except.bind, hgi, hns2]; rfl⟩

lemma except_ok_bind {α β : Type} (v : α) (k : α → Except JsError β) :
    Bind.bind (Except.ok v) k = k v := rfl

lemma except_error_bind {α β : Type} (e : JsError) (k : α → Except JsError β) :
    Bind.bind (Except.error e : Except JsError α) k = Except.error e := rfl

lemma except_unit_bind_ok {α : Type} (x : Except JsError Unit)
    (k : Unit → Except JsError α) (a : α)
    (h : Bind.bind x k = Except.ok a) : k () = Except.ok a := by
  cases x with
  | ok u => cases u; simpa [except_ok_bind] using h
  | error e => rw [except_error_bind] at h; exact Except.noConfusion h

lemma legacy_tail_ok_label (menv : MEnv) (L : ℕ) (s : String)
    (h : (do
        let _ ←
          if menv.storedFlag ≠ some (if L = 0 then "dark" else if L = 1 then "dim" else "bright")
          then legacyEffectsBlock menv L
          else Except.ok ()
        let _ ← menv.setFlagOp
        Except.ok (if L = 0 then "dark" else if L = 1 then "dim" else "bright") :
        Except JsError String) = Except.ok s) :
    isLightLabel s = true := by
  by_cases hc :
      menv.storedFlag ≠ some (if L = 0 then "dark" else if L = 1 then "dim" else "bright")
  · rw [if_pos hc] at h
    have h1 := except_unit_bind_ok _ _ _ h
    have h2 := except_unit_bind_ok _ _ _ h1
    injection h2 with hs
    exact hs ▸ levelText_label _
  · rw [if_neg hc] at h
    have h1 := except_unit_bind_ok _ _ _ h
    have h2 := except_unit_bind_ok _ _ _ h1
    injection h2 with hs
    exact hs ▸ levelText_label _

lemma findTokenLighting_ok_label (menv : MEnv) (s : String)
    (hflag : menv.storedFlag.all isLightLabel = true)
    (h : findTokenLighting menv = Except.ok s) : isLightLabel s = true := by
  unfold findTokenLighting at h
  by_cases hp : menv.processing = true
  · rw [if_pos hp] at h
    injection h with hs
    rcases hf : menv.storedFlag with _ | t
    · rw [hf] at hs
      rw [← hs]
      decide
    · rw [hf] at hs hflag
      simp [Option.all] at hflag
      rw [← hs]
      simpa using hflag
  · rw [if_neg hp] at h
    rcases hg : menv.giSetting with e | g <;> rw [hg] at h
    · simp [Bind.bind, Except.bind] at h
    · rcases hng : menv.negSetting with e | ns <;> rw [hng] at h
      · simp [Bind.bind, Except.bind] at h
      · simp only [except_ok_bind] at h
        exact legacy_tail_ok_label menv _ s h

/-! ## Claim theorems -/

/-- C3: during source iteration, a positive source whose bright radius
covers the token (bright radius positive) raises the level to BRIGHT only
when global illumination is not already active for the token, whereas a
negative source whose bright radius covers the token lowers the level to
DARK even when global illumination is active
(LightingCalculator._processIndividualLight). -/
theorem tlc_bright_raise_gi_asymmetry
    (s : SourceRec) (cur : ℕ) (gi ns : Bool)
    (hh : s.hasSource = true) (ha : s.active = true)
    (hang : isTokenInLightAngle s.angle s.rotation s.bearing = true)
    (hw : s.wallBlocked = false)
    (hbr : s.dist ≤ s.bright) (hbp : 0 < s.bright) (hcur : cur ≤ 2) :
    (¬(ns = true ∧ s.luminosity < 0) →
      (processIndividualLight s cur gi ns = 2 ↔ gi = false ∨ cur = 2))
  ∧ ((ns = true ∧ s.luminosity < 0) → processIndividualLight s cur gi ns = 0) := by
  constructor
  · intro hnneg
    cases gi with
    | false =>
      rw [processIndividualLight_positive_bright s cur ns hh ha hang hw hnneg hbr hbp hcur]
      simp
    | true =>
      rw [processIndividualLight_positive_gi s cur ns hh ha hang hw hnneg hbr hbp]
      simp
  · intro hneg
    exact processIndividualLight_negative_bright s cur gi ns hh ha hang hw hneg.1 hneg.2 hbr hbp

/-- C3 witness: a positive covering source raises 0 to 2 without global
illumination, and a negative covering source lowers 2 to 0 with global
illumination active. -/
theorem tlc_bright_raise_gi_asymmetry_witness :
    processIndividualLight (brightSourceAt 10) 0 false false = 2
  ∧ processIndividualLight darknessSource 2 true true = 0 := by
  constructor
  · exact ((tlc_bright_raise_gi_asymmetry (brightSourceAt 10) 0 false false rfl rfl
      (by decide) rfl (by decide) (by decide) (by decide)).1 (by decide)).2 (Or.inl rfl)
  · exact (tlc_bright_raise_gi_asymmetry darknessSource 2 true true rfl rfl
      (by decide) rfl (by decide) (by decide) (by decide)).2 (by decide)

/-- C4: with negative lights enabled and no global illumination, a catalog
of one active positive source and one active negative source, both with
covering positive bright radii, unobstructed and 360 degrees, resolves to
dark for either input ordering, because the catalog is sorted brightest
luminosity first before iteration. -/
theorem tlc_negative_precedence_order_independent
    (env : Env) (p n : SourceRec)
    (hgi : env.giSetting = Except.ok false)
    (hns : env.negSetting = Except.ok true)
    (hord : env.sources = [p, n] ∨ env.sources = [n, p])
    (hph : p.hasSource = true) (hpa : p.active = true) (hplum : 0 ≤ p.luminosity)
    (hpang : 360 ≤ p.angle) (hpw : p.wallBlocked = false)
    (hpbr : p.dist ≤ p.bright) (hpbp : 0 < p.bright)
    (hnh : n.hasSource = true) (hna : n.active = true) (hnlum : n.luminosity < 0)
    (hnang : 360 ≤ n.angle) (hnw : n.wallBlocked = false)
    (hnbr : n.dist ≤ n.bright) (hnbp : 0 < n.bright) :
    determineLightLevel env = "dark" := by
  have hsort := sortByLum_pair_pos_neg p n hplum hnlum
  have hpnneg : ¬(true = true ∧ p.luminosity < 0) := by simp [not_lt.2 hplum]
  have hstep1 : processIndividualLight p 0 false true = 2 :=
    processIndividualLight_positive_bright p 0 true hph hpa
      (isTokenInLightAngle_of_ge360 hpang) hpw hpnneg hpbr hpbp (by norm_num)
  have hstep2 : processIndividualLight n 2 false true = 0 :=
    processIndividualLight_negative_bright n 2 false true hnh hna
      (isTokenInLightAngle_of_ge360 hnang) hnw rfl hnlum hnbr hnbp
  rw [determineLightLevel_noGI env true hgi hns]
  rcases hord with h | h <;> rw [h]
  · rw [hsort.1]
    simp [hstep1, hstep2, convertLightLevelToText]
  · rw [hsort.2]
    simp [hstep1, hstep2, convertLightLevelToText]

/-- C4 witness: the catalog listed darkness first still resolves dark. -/
theorem tlc_negative_precedence_order_independent_witness :
    determineLightLevel
      (envWith (Except.ok false) (Except.ok true) [darknessSource, brightSourceAt 5])
      = "dark" :=
  tlc_negative_precedence_order_independent _ (brightSourceAt 5) darknessSource
    rfl rfl (Or.inr rfl) rfl rfl (by decide) (by decide) rfl (by decide) (by decide)
    rfl rfl (by decide) (by decide) rfl (by decide) (by decide)

/-- C5 as amended: in the current resolver
(LightingCalculator.determineLightLevel), a token lit by a single active
positive 360-degree unobstructed source with no global illumination is
BRIGHT when the distance is within a positive bright radius, otherwise DIM
when within a positive dim radius, otherwise DARK (so a source whose
largest radius is below the distance contributes nothing).  The part_008
LightingManager variant deviates on the first scenario (see the
counterexample): its dim block returns before the bright check. -/
theorem tlc_single_source_classification
    (env : Env) (s : SourceRec) (ns : Bool)
    (hgi : env.giSetting = Except.ok false)
    (hns : env.negSetting = Except.ok ns)
    (hsrc : env.sources = [s])
    (hh : s.hasSource = true) (ha : s.active = true) (hlum : 0 ≤ s.luminosity)
    (hang : 360 ≤ s.angle) (hw : s.wallBlocked = false) :
    determineLightLevel env =
      if s.dist ≤ s.bright ∧ 0 < s.bright then "bright"
      else if s.dist ≤ s.dim ∧ 0 < s.dim then "dim"
      else "dark" := by
  have hnneg : ¬(ns = true ∧ s.luminosity < 0) := fun h => absurd h.2 (not_lt.2 hlum)
  have hangT := isTokenInLightAngle_of_ge360 (r := s.rotation) (b := s.bearing) hang
  rw [determineLightLevel_noGI env ns hgi hns, hsrc]
  show convertLightLevelToText (processIndividualLight s 0 false ns) = _
  by_cases hb : s.dist ≤ s.bright ∧ 0 < s.bright
  · rw [processIndividualLight_positive_bright s 0 ns hh ha hangT hw hnneg hb.1 hb.2
      (by norm_num)]
    simp [hb, convertLightLevelToText]
  · by_cases hd : s.dist ≤ s.dim ∧ 0 < s.dim
    · rw [processIndividualLight_positive_dim_only s false ns hh ha hangT hw hnneg hb hd.1 hd.2]
      simp [hb, hd, convertLightLevelToText]
    · rw [processIndividualLight_no_effect s 0 false ns hd hb]
      simp [hb, hd, convertLightLevelToText]

/-- C5 witness: the three scenarios of the claim, with dim radius 20 and
bright radius 10: distance 10 is bright, 15 is dim, 25 is dark. -/
theorem tlc_single_source_classification_witness :
    determineLightLevel (envWith (Except.ok false) (Except.ok false) [brightSourceAt 10])
      = "bright"
  ∧ determineLightLevel (envWith (Except.ok false) (Except.ok false) [brightSourceAt 15])
      = "dim"
  ∧ determineLightLevel (envWith (Except.ok false) (Except.ok false) [brightSourceAt 25])
      = "dark" := by
  refine ⟨?_, ?_, ?_⟩ <;>
    rw [tlc_single_source_classification _ _ false rfl rfl rfl rfl rfl (by decide)
      (by decide) rfl] <;>
    decide

/-- C5 counterexample: the claim fails on the cited
LightingManager._applyLightSourceEffect (part_008): for the claim's first
scenario (distance 10, dim radius 20, bright radius 10, positive active
360-degree unobstructed source, level DARK at entry) that resolver yields
dim, not the claimed bright, because the dim block returns first. -/
theorem tlc_legacy_apply_effect_dim_shadows_bright :
    getLightLevelText (calculateLightSourcesLM false [brightSourceAt 10] 0) = "dim"
  ∧ getLightLevelText (calculateLightSourcesLM false [brightSourceAt 10] 0) ≠ "bright" := by
  decide

/-- C2 as amended: in the current engine the veto holds: when the
global-illumination setting is on and some light-restricting tile
intersects the token from a strictly higher elevation,
_checkGlobalIllumination reports global illumination inactive for the
token and, absent light sources, determineLightLevel resolves dark.  The
legacy LightingManager.findTokenLighting has no region veto (see the
counterexample). -/
theorem tlc_global_illumination_tile_veto
    (env : Env) (ts : List TileRec) (tile : TileRec) (ns : Bool)
    (hgi : env.giSetting = Except.ok true)
    (hns : env.negSetting = Except.ok ns)
    (hgl : env.globalLightEnabled = true)
    (hth : env.thresholdMax.getD 1 ≠ 0)
    (hdk : env.darkness ≤ env.thresholdMax.getD 1)
    (htiles : env.tiles = some ts) (hmem : tile ∈ ts)
    (hr : tile.restrictsLight = true) (hint : tile.intersectsToken = true)
    (helv : env.tokenElevation < tile.elevation)
    (hsrc : env.sources = []) :
    checkGlobalIllumination env = false ∧ determineLightLevel env = "dark" := by
  have hveto := isTokenUnderLightRestrictingTile_of_mem env ts tile htiles hmem hr hint helv
  have hcgi : checkGlobalIllumination env = false := by
    simp [checkGlobalIllumination, hveto]
  refine ⟨hcgi, ?_⟩
  rw [determineLightLevel_giVetoed env ns hgi hns hcgi, hsrc]
  rfl

/-- C2 witness: global light on, darkness 1/5 within the threshold 1/2, a
light-restricting tile at elevation 10 over the token at elevation 0, no
sources: global illumination is inactive and the token resolves dark. -/
theorem tlc_global_illumination_tile_veto_witness :
    checkGlobalIllumination envGIVeto = false ∧ determineLightLevel envGIVeto = "dark" :=
  tlc_global_illumination_tile_veto envGIVeto [tileAboveW] tileAboveW false
    rfl rfl rfl (by decide) (by decide) rfl (by decide) rfl rfl (by decide) rfl

/-- C2 counterexample: the claim fails on the legacy
LightingManager.findTokenLighting (scripts/utils/lighting.js): in the same
scenario (global illumination enabled, darkness 1/5 at most the threshold
1/2, a light-restricting tile above the token, no sources) it resolves
bright, because it never consults tiles. -/
theorem tlc_legacy_no_region_veto :
    findTokenLighting mEnvGIVeto = Except.ok "bright" := by decide

/-- C1 as amended: every resolution result is one of bright, dim, dark:
LightingCalculator.determineLightLevel always returns one of the three
labels and resolves any exception of its try-block to bright; the legacy
LightingManager.findTokenLighting also only ever returns one of the three
labels when it completes (given that the stored flag, if any, is a label),
but it does not catch: internal exceptions propagate to its caller (see
the counterexample). -/
theorem tlc_resolution_labels_and_error_policy :
    (∀ env : Env, isLightLabel (determineLightLevel env) = true)
  ∧ (∀ (env : Env) (e : JsError), determineLightLevelTry env = Except.error e →
      determineLightLevel env = "bright")
  ∧ (∀ (menv : MEnv) (s : String), menv.storedFlag.all isLightLabel = true →
      findTokenLighting menv = Except.ok s → isLightLabel s = true) := by
  refine ⟨?_, ?_, ?_⟩
  · intro env
    rcases determineLightLevelTry_shape env with ⟨e, he⟩ | ⟨n, hn⟩
    · unfold determineLightLevel
      rw [he]
      rfl
    · unfold determineLightLevel
      rw [hn]
      exact convertLightLevelToText_label n
  · intro env e he
    unfold determineLightLevel
    rw [he]
  · intro menv s hflag h
    exact findTokenLighting_ok_label menv s hflag h

/-- C1 witness: the current resolver yields a label on an empty scene,
resolves a throwing settings read to bright, and the legacy resolver's
normal completion yields a label. -/
theorem tlc_resolution_labels_and_error_policy_witness :
    isLightLabel (determineLightLevel (envWith (Except.ok false) (Except.ok false) [])) = true
  ∧ determineLightLevel envThrow = "bright"
  ∧ isLightLabel "dark" = true :=
  ⟨tlc_resolution_labels_and_error_policy.1 _,
   tlc_resolution_labels_and_error_policy.2.1 envThrow JsError.thrown (by decide),
   tlc_resolution_labels_and_error_policy.2.2 mEnvPlain "dark" (by decide) (by decide)⟩

/-- C1 counterexample: the claim that the resolution operation never
propagates an exception (resolving it to bright) is false for
LightingManager.findTokenLighting: when its first settings read throws,
the exception escapes to the caller (the function has try/finally but no
catch). -/
theorem tlc_findTokenLighting_propagates_error :
    findTokenLighting mEnvThrow = Except.error JsError.thrown := by decide

/-- C6: for every bearing, rotation, and cone angle the token is inside
the cone iff the angle is at least 360 or the absolute bearing-rotation
difference wrapped to at most 180 is at most half the cone angle; a
difference of exactly half the cone angle is inside and any strictly
larger difference is outside; the legacy cone test agrees after its
negative-bearing normalization. -/
theorem tlc_cone_membership (lightAngle lightRotation tokenAngle : ℚ) :
    (isTokenInLightAngle lightAngle lightRotation tokenAngle = true ↔
      360 ≤ lightAngle ∨ wrapDiff tokenAngle lightRotation ≤ lightAngle / 2)
  ∧ (lightAngle < 360 → wrapDiff tokenAngle lightRotation = lightAngle / 2 →
      isTokenInLightAngle lightAngle lightRotation tokenAngle = true)
  ∧ (lightAngle < 360 → lightAngle / 2 < wrapDiff tokenAngle lightRotation →
      isTokenInLightAngle lightAngle lightRotation tokenAngle = false)
  ∧ (∀ rawBearing : ℚ, isTokenInLightAngleLM lightAngle lightRotation rawBearing =
      isTokenInLightAngle lightAngle lightRotation
        (if rawBearing < 0 then rawBearing + 360 else rawBearing)) := by
  refine ⟨?_, ?_, ?_, ?_⟩
  · unfold isTokenInLightAngle wrapDiff
    by_cases h : 360 ≤ lightAngle <;> simp [h]
  · intro h360 heq
    unfold isTokenInLightAngle
    rw [if_neg (not_le.2 h360)]
    simp only [wrapDiff] at heq
    simp only [heq]
    simp
  · intro h360 hgt
    unfold isTokenInLightAngle
    rw [if_neg (not_le.2 h360)]
    simp only [wrapDiff] at hgt
    simp [not_le.2 hgt]
  · intro rawBearing
    rfl

/-- C6 witness: cone angle 90 and rotation 0: bearing 45 (exactly half
the cone) is inside, bearing 46 is outside. -/
theorem tlc_cone_membership_witness :
    isTokenInLightAngle 90 0 45 = true ∧ isTokenInLightAngle 90 0 46 = false :=
  ⟨(tlc_cone_membership 90 0 45).2.1 (by norm_num) (by norm_num [wrapDiff]),
   (tlc_cone_membership 90 0 46).2.2.1 (by norm_num) (by norm_num [wrapDiff])⟩

/-- C7: once canProcessToken admits a token id at a (positive) time t,
any further check for the same id strictly before t + 500 is refused and
leaves the breaker map unchanged, so two triggers 100 ms apart yield
exactly one admission. -/
theorem tlc_circuit_breaker_cooldown
    (breaker breaker' : List (String × ℕ)) (tokenId : String) (t : ℕ)
    (hfirst : canProcessToken breaker tokenId t = (true, breaker'))
    (ht : 0 < t) (t' : ℕ) (hwin : (t' : ℤ) < (t : ℤ) + 500) :
    canProcessToken breaker' tokenId t' = (false, breaker') := by
  have hbr : breaker' = breakerSet breaker tokenId t := by
    unfold canProcessToken at hfirst
    rcases hl : breaker.lookup tokenId with _ | last <;> rw [hl] at hfirst
    · exact (Prod.mk.injEq _ _ _ _ ▸ hfirst).2.symm
    · change (if last ≠ 0 ∧ (t : ℤ) - (last : ℤ) < 500 then (false, breaker)
          else (true, breakerSet breaker tokenId t)) = (true, breaker') at hfirst
      by_cases hcond : last ≠ 0 ∧ (t : ℤ) - (last : ℤ) < 500
      · rw [if_pos hcond] at hfirst
        exact absurd (Prod.mk.injEq _ _ _ _ ▸ hfirst).1 (by decide)
      · rw [if_neg hcond] at hfirst
        exact (Prod.mk.injEq _ _ _ _ ▸ hfirst).2.symm
  subst hbr
  unfold canProcessToken breakerSet
  simp only [List.lookup, beq_self_eq_true, if_pos]
  rw [if_pos ⟨by omega, by omega⟩]

/-- C7 witness: admitted at 1000, the check at 1100 (100 ms later, inside
the 500 ms cooldown) is refused with the map unchanged. -/
theorem tlc_circuit_breaker_cooldown_witness :
    canProcessToken [("a", 1000)] "a" 1100 = (false, [("a", 1000)]) :=
  tlc_circuit_breaker_cooldown [] [("a", 1000)] "a" 1000 (by decide) (by decide)
    1100 (by decide)

/-- C8 as amended: the current drain (token-light-condition.mjs) discards
every snapshot entry whose age at drain time is at least 5000 ms without
applying it, and applies only entries younger than 5000 ms; the older
drain of part_001 consults no timestamps and applies stale entries (see
the counterexample). -/
theorem tlc_queue_drain_discards_stale
    (tokenValid : String → Bool) (operations : List (String × PendingOp)) (now : ℕ) :
    (∀ p ∈ operations, 5000 ≤ (now : ℤ) - (p.2.timestamp : ℤ) →
        p ∉ processQueueExecuted tokenValid operations now)
  ∧ (∀ p ∈ processQueueExecuted tokenValid operations now,
        (now : ℤ) - (p.2.timestamp : ℤ) < 5000 ∧ p ∈ operations) := by
  constructor
  · intro p _ hstale hmem
    unfold processQueueExecuted validOperations at hmem
    simp only [List.mem_filter, decide_eq_true_eq] at hmem
    omega
  · intro p hmem
    unfold processQueueExecuted validOperations at hmem
    simp only [List.mem_filter, decide_eq_true_eq] at hmem
    exact ⟨hmem.1.2, hmem.1.1⟩

/-- C8 witness: at drain time 6000, the entry enqueued at 0 (age 6000) is
not applied, while the entry enqueued at 2000 (age 4000) is young and
still pending from the snapshot. -/
theorem tlc_queue_drain_discards_stale_witness :
    ("a", PendingOp.mk "dark" 0) ∉
      processQueueExecuted (fun _ => true)
        [("a", PendingOp.mk "dark" 0), ("b", PendingOp.mk "dim" 2000)] 6000
  ∧ ((6000 : ℤ) - ((2000 : ℕ) : ℤ) < 5000 ∧
      ("b", PendingOp.mk "dim" 2000) ∈
        [("a", PendingOp.mk "dark" 0), ("b", PendingOp.mk "dim" 2000)]) :=
  ⟨(tlc_queue_drain_discards_stale (fun _ => true)
      [("a", PendingOp.mk "dark" 0), ("b", PendingOp.mk "dim" 2000)] 6000).1
      ("a", PendingOp.mk "dark" 0) (by decide) (by decide),
   (tlc_queue_drain_discards_stale (fun _ => true)
      [("a", PendingOp.mk "dark" 0), ("b", PendingOp.mk "dim" 2000)] 6000).2
      ("b", PendingOp.mk "dim" 2000) (by decide)⟩

/-- C8 counterexample: the claim fails on the older effectQueue.processQueue
(part_001): it applies every snapshot entry with a live valid token, so an
operation enqueued at time 0 is still applied at a drain at time 6000
(age 6000 ms, over the 5000 ms maximum), where the current drain discards
it. -/
theorem tlc_legacy_queue_executes_stale :
    processQueueOldExecuted (fun _ => true) [("a", PendingOp.mk "dark" 0)]
      = [("a", PendingOp.mk "dark" 0)]
  ∧ processQueueExecuted (fun _ => true) [("a", PendingOp.mk "dark" 0)] 6000 = [] := by
  decide

/-- C10: a token without valid hit points is never classified: the current
calculateTokenLighting either skips it (guards) or enqueues a clear, never
a light level, and the legacy checkTokenLighting either skips it or clears
its effects, never resolving a level. -/
theorem tlc_dead_tokens_not_classified
    (isGM isValidToken canProcess isGM2 isValidActor : Bool)
    (hpValue : Option ℚ) (storedFlag : Option String) (env : Env)
    (hdead : hasValidHitPoints hpValue = false) :
    (calculateTokenLighting isGM isValidToken canProcess hpValue storedFlag env
        = CalcOutcome.skipped
      ∨ calculateTokenLighting isGM isValidToken canProcess hpValue storedFlag env
        = CalcOutcome.queuedClear)
  ∧ (∀ s, calculateTokenLighting isGM isValidToken canProcess hpValue storedFlag env
        ≠ CalcOutcome.queuedLevel s)
  ∧ (checkTokenLighting isGM2 isValidActor hpValue = CheckOutcome.skipped
      ∨ checkTokenLighting isGM2 isValidActor hpValue = CheckOutcome.clearedEffects) := by
  unfold calculateTokenLighting checkTokenLighting
  rcases isGM with _ | _ <;> rcases isValidToken with _ | _ <;>
    rcases canProcess with _ | _ <;> rcases isGM2 with _ | _ <;>
    rcases isValidActor with _ | _ <;> simp [hdead]

/-- C10 witness: a token at 0 hit points is queued for clear (or skipped)
by the current path and cleared (or skipped) by the legacy path. -/
theorem tlc_dead_tokens_not_classified_witness :
    (calculateTokenLighting true true true (some 0) none
        (envWith (Except.ok false) (Except.ok false) []) = CalcOutcome.skipped
      ∨ calculateTokenLighting true true true (some 0) none
        (envWith (Except.ok false) (Except.ok false) []) = CalcOutcome.queuedClear)
  ∧ (checkTokenLighting true true (some 0) = CheckOutcome.skipped
      ∨ checkTokenLighting true true (some 0) = CheckOutcome.clearedEffects) :=
  ⟨(tlc_dead_tokens_not_classified true true true true true (some 0) none
      (envWith (Except.ok false) (Except.ok false) []) (by decide)).1,
   (tlc_dead_tokens_not_classified true true true true true (some 0) none
      (envWith (Except.ok false) (Except.ok false) []) (by decide)).2.2⟩

/-- Degrees obtained from a complex argument lie in (-180, 180]. -/
lemma arg_deg_bounds (z : ℂ) :
    -180 < z.arg * (180 / Real.pi) ∧ z.arg * (180 / Real.pi) ≤ 180 := by
  have hpi : (0 : ℝ) < Real.pi := Real.pi_pos
  have h1 : -Real.pi < z.arg := Complex.neg_pi_lt_arg z
  have h2 : z.arg ≤ Real.pi := Complex.arg_le_pi z
  have hk : (0 : ℝ) < 180 / Real.pi := by positivity
  have he : Real.pi * (180 / Real.pi) = 180 := by field_simp
  constructor
  · have := mul_lt_mul_of_pos_right h1 hk
    nlinarith
  · have := mul_le_mul_of_nonneg_right h2 (le_of_lt hk)
    nlinarith

/-- C9 as amended: the current engine's
LightingCalculator.calculateLightAngle returns a bearing in [0, 360) for
every pair of positions and 0 for coincident positions; the legacy
LightingManager.getCalculatedLightAngle returns the raw atan2 degrees in
(-180, 180] (its caller adds 360 to negative values) and 0 for coincident
positions. -/
theorem tlc_bearing_angle_range :
    (∀ tokenX tokenY lightX lightY : ℝ,
      (0 ≤ calculateLightAngle tokenX tokenY lightX lightY
        ∧ calculateLightAngle tokenX tokenY lightX lightY < 360)
      ∧ (lightX - tokenX = 0 ∧ tokenY - lightY = 0 →
          calculateLightAngle tokenX tokenY lightX lightY = 0))
  ∧ (∀ b1 b2 a1 a2 : ℝ,
      (-180 < getCalculatedLightAngle b1 b2 a1 a2
        ∧ getCalculatedLightAngle b1 b2 a1 a2 ≤ 180)
      ∧ (a1 - b1 = 0 ∧ b2 - a2 = 0 → getCalculatedLightAngle b1 b2 a1 a2 = 0)) := by
  constructor
  · intro tokenX tokenY lightX lightY
    constructor
    · unfold calculateLightAngle
      by_cases hcoin : lightX - tokenX = 0 ∧ tokenY - lightY = 0
      · rw [if_pos hcoin]
        norm_num
      · rw [if_neg hcoin]
        obtain ⟨hlo, hhi⟩ := arg_deg_bounds ⟨tokenY - lightY, lightX - tokenX⟩
        by_cases hneg : Complex.arg ⟨tokenY - lightY, lightX - tokenX⟩ * (180 / Real.pi) < 0
        · rw [if_pos hneg]
          constructor <;> linarith
        · rw [if_neg hneg]
          push_neg at hneg
          constructor <;> linarith
    · intro hcoin
      unfold calculateLightAngle
      rw [if_pos hcoin]
  · intro b1 b2 a1 a2
    constructor
    · exact arg_deg_bounds ⟨b2 - a2, a1 - b1⟩
    · intro hcoin
      unfold getCalculatedLightAngle
      have hz : (⟨b2 - a2, a1 - b1⟩ : ℂ) = 0 := by
        simp [Complex.ext_iff, hcoin.1, hcoin.2]
      rw [hz, Complex.arg_zero, zero_mul]

/-- C9 witness: coincident positions give bearing 0 in both generations. -/
theorem tlc_bearing_angle_range_witness :
    calculateLightAngle 5 5 5 5 = 0 ∧ getCalculatedLightAngle 3 4 3 4 = 0 :=
  ⟨(tlc_bearing_angle_range.1 5 5 5 5).2 (by norm_num),
   (tlc_bearing_angle_range.2 3 4 3 4).2 (by norm_num)⟩

/-- C9 counterexample: the claim that the bearing computation returns a
value in [0, 360) is false for the cited
LightingManager.getCalculatedLightAngle: a token at (1, 0) with the light
at the origin yields atan2(-1, 0) in degrees, which is -90, a negative
value (the caller, not the function, normalizes it). -/
theorem tlc_getCalculatedLightAngle_negative :
    getCalculatedLightAngle 1 0 0 0 = -90 ∧ getCalculatedLightAngle 1 0 0 0 < 0 := by
  have hz : (⟨(0 : ℝ) - 0, (0 : ℝ) - 1⟩ : ℂ) = -Complex.I := by
    norm_num [Complex.ext_iff]
  have h : getCalculatedLightAngle 1 0 0 0 = -90 := by
    unfold getCalculatedLightAngle
    rw [hz, Complex.arg_neg_I]
    have hpi : Real.pi ≠ 0 := Real.pi_ne_zero
    field_simp
    ring
  exact ⟨h, by rw [h]; norm_num⟩
